import Mathlib

/-!
Verification of the credential and session lifecycle engine of the
ts-authn-authz repository, as a shallow embedding of its TypeScript
services:

- auth.service.ts (AuthService: login, register, logout, refresh)
- token.service.ts (TokenService: access and refresh token minting)
- password.service.ts (PasswordService: resetPassword)
- utils/hash.ts (bcrypt password hashing and verification)

The relational store (Prisma over PostgreSQL) is modelled as explicit
state: one list of rows per table, each prisma call a pure state
transition. Time is a millisecond counter carried in the state.
Cryptographic primitives keep their ideal functionality: the SHA-256
digest and the bcrypt digest are injective encodings of their input,
and the random token generator draws pairwise distinct values from an
entropy counter. Signed access tokens are modelled by their payload:
an RS256 signature cannot be forged, so a token value exists only if
the token service minted it.
-/

namespace TsAuthnAuthz

/-- Time in milliseconds since the epoch, as produced by a JS Date. -/
abbrev Millis := Nat

/-- Model of crypto.createHash("sha256").update(s).digest("hex"): a
deterministic, collision-free digest, modelled as an injective tagging of
the input string. -/
def sha256Hex (s : String) : String := "sha256.".append s

/-- Model of utils/hash.ts hashPassword: a salted bcrypt digest, modelled
by an injective encoding of the password (the per-call random salt is
dropped: no verified property depends on it). -/
def hashPassword (password : String) : String := "bcrypt.".append password

/-- Ideal functionality of bcrypt.compare on a string hash: true exactly
when the stored hash was produced by hashPassword from the same password. -/
def bcryptCompare (password hash : String) : Bool := hash == hashPassword password

/-- utils/hash.ts verifyPassword as invoked by AuthService.login. The
call site passes account.passwordHash with a TS non-null assertion, which
erases at runtime, so a null stored hash reaches bcryptjs.compare; its
argument check rejects a non-string hash with an Illegal arguments error
(typeof null is "object"). -/
def verifyPassword (password : String) (hash : Option String) : Except String Bool :=
  match hash with
  | none => .error "Illegal arguments: string, object"
  | some h => .ok (bcryptCompare password h)

/-- Model of crypto.randomBytes(n).toString("hex"): successive draws from
an entropy counter; distinct draws are distinct values, and no draw
collides with the other string families of the model. -/
def randomHex (n : Nat) : String := "rand.".append (Nat.repr n)

/-- Model of the store-generated row id (cuid) for newly inserted rows. -/
def freshId (n : Nat) : String := "row.".append (Nat.repr n)

/-- Whether the first list of characters leads the second one. -/
def leadsWith : List Char → List Char → Bool
  | [], _ => true
  | _ :: _, [] => false
  | p :: ps, c :: cs => p == c && leadsWith ps cs

/-- Character-level search for a pattern occurrence. -/
def jsIncludesL (pat : List Char) : List Char → Bool
  | [] => leadsWith pat []
  | c :: cs => leadsWith pat (c :: cs) || jsIncludesL pat cs

/-- JS String.prototype.includes for a string pattern. -/
def jsIncludes (s pat : String) : Bool :=
  jsIncludesL pat.data s.data

/-- Character-level replacement of the first pattern occurrence. -/
def jsReplaceFirstL (pat repl : List Char) : List Char → List Char
  | [] => if leadsWith pat [] then repl else []
  | c :: cs =>
    if leadsWith pat (c :: cs) then repl ++ List.drop pat.length (c :: cs)
    else c :: jsReplaceFirstL pat repl cs

/-- JS String.prototype.replace with a string pattern: replaces only the
first occurrence of the pattern. -/
def jsReplaceFirst (s pat repl : String) : String :=
  String.mk (jsReplaceFirstL pat.data repl.data s.data)

/-- env.ACCESS_TOKEN_TTL, default "15m", in milliseconds. -/
def ACCESS_TOKEN_TTL_MS : Nat := 15 * 60 * 1000

/-- env.REFRESH_TOKEN_TTL_DAYS, default 14. -/
def REFRESH_TOKEN_TTL_DAYS : Nat := 14

/-- A row of the User table (external principals); prisma/migration: id,
email, nullable passwordHash, nullable name, isActive, nullable deletedAt. -/
structure User where
  id : String
  email : String
  passwordHash : Option String
  name : Option String
  isActive : Bool
  deletedAt : Option Millis
deriving DecidableEq, Repr

/-- A row of the InternalUser table (internal principals). -/
structure InternalUser where
  id : String
  email : String
  passwordHash : Option String
  name : Option String
  isActive : Bool
deriving DecidableEq, Repr

/-- A row of the Session table: nullable userId / internalUserId, nullable
revokedAt (null means active). -/
structure Session where
  id : String
  userId : Option String
  internalUserId : Option String
  userAgent : Option String
  ip : Option String
  revokedAt : Option Millis
  createdAt : Millis
deriving DecidableEq, Repr

/-- A row of the RefreshToken table: the raw value is never persisted,
only its SHA-256 hash; revokedAt null means active. -/
structure RefreshToken where
  id : String
  userId : Option String
  internalUserId : Option String
  sessionId : String
  tokenHash : String
  expiresAt : Millis
  revokedAt : Option Millis
deriving DecidableEq, Repr

/-- A row of the PasswordResetToken table; usedAt null means unused. -/
structure PasswordResetToken where
  id : String
  userId : String
  tokenHash : String
  expiresAt : Millis
  usedAt : Option Millis
deriving DecidableEq, Repr

/-- A row of the append-only AuditLog table. -/
structure AuditLog where
  action : String
  userId : Option String
  internalUserId : Option String
  entityType : Option String
  entityId : Option String
  ipAddress : Option String
  userAgent : Option String
deriving DecidableEq, Repr

/-- A signed access token, modelled by its JWT payload. RS256 signing is
modelled at the type level: a value of this type exists only if
TokenService.generateAccessToken produced it, so signature verification
cannot be fooled by a forged blob. -/
structure AccessToken where
  sub : String
  email : Option String
  type : Option String
  action : Option String
  iat : Millis
  exp : Millis
deriving DecidableEq, Repr

/-- The persistent store plus the ambient context of a request: the table
contents, the entropy counter backing crypto.randomBytes, the id counter
backing store-generated ids, and the current clock. -/
structure DB where
  users : List User
  internalUsers : List InternalUser
  sessions : List Session
  refreshTokens : List RefreshToken
  resetTokens : List PasswordResetToken
  auditLogs : List AuditLog
  rng : Nat
  nextRowId : Nat
  now : Millis
deriving DecidableEq, Repr

/-- prisma.internalUser.findUnique on the email key. -/
def findInternalUserByEmail (db : DB) (email : String) : Option InternalUser :=
  db.internalUsers.find? (fun u => u.email == email)

/-- prisma.user.findFirst where email matches and deletedAt is null. -/
def findActiveUserByEmail (db : DB) (email : String) : Option User :=
  db.users.find? (fun u => u.email == email && u.deletedAt == none)

/-- prisma.refreshToken.findUnique on the tokenHash key. -/
def findRefreshTokenByHash (db : DB) (h : String) : Option RefreshToken :=
  db.refreshTokens.find? (fun t => t.tokenHash == h)

/-- prisma.session relation lookup by primary key. -/
def findSessionById (db : DB) (sid : String) : Option Session :=
  db.sessions.find? (fun s => s.id == sid)

/-- prisma.passwordResetToken.findUnique on the tokenHash key. -/
def findResetTokenByHash (db : DB) (h : String) : Option PasswordResetToken :=
  db.resetTokens.find? (fun t => t.tokenHash == h)

/-- prisma.user relation lookup by primary key. -/
def findUserById (db : DB) (uid : String) : Option User :=
  db.users.find? (fun u => u.id == uid)

/-- prisma.auditLog.create: append one record to the append-only table. -/
def appendAudit (db : DB) (rec : AuditLog) : DB :=
  { db with auditLogs := db.auditLogs ++ [rec] }

/-- JS template interpolation of a possibly-undefined string value. -/
def optStr (o : Option String) : String := o.getD "undefined"

/-- TokenService.generateAccessToken: signs the payload, embedding the
issue time and a fixed short expiry. No store effect. -/
def generateAccessToken (db : DB) (sub : String) (email : Option String)
    (type : Option String) (action : Option String) : AccessToken :=
  { sub := sub, email := email, type := type, action := action,
    iat := db.now, exp := db.now + ACCESS_TOKEN_TTL_MS }

/-- TokenService.generateRefreshToken: draws a random 512-bit value,
persists a new row holding its SHA-256 hash with expiry now plus the
configured TTL in days, keyed to the session and the principal variant,
and returns the raw value. -/
def generateRefreshToken (db : DB) (id : String) (sessionId : String)
    (userType : String) : String × DB :=
  let token := randomHex db.rng
  let tokenHash := sha256Hex token
  let expiresAt := db.now + REFRESH_TOKEN_TTL_DAYS * 24 * 60 * 60 * 1000
  let row : RefreshToken :=
    if userType == "external" then
      { id := freshId db.nextRowId, userId := some id, internalUserId := none,
        sessionId := sessionId, tokenHash := tokenHash,
        expiresAt := expiresAt, revokedAt := none }
    else
      { id := freshId db.nextRowId, userId := none, internalUserId := some id,
        sessionId := sessionId, tokenHash := tokenHash,
        expiresAt := expiresAt, revokedAt := none }
  (token, { db with refreshTokens := db.refreshTokens ++ [row],
                    rng := db.rng + 1, nextRowId := db.nextRowId + 1 })

/-- TokenService.verifyAccessToken: jose jwtVerify against the public key;
rejects a token whose expiry is not after the current time. The signature
check itself is modelled by the AccessToken type (only minted payloads
exist). -/
def verifyAccessToken (db : DB) (token : AccessToken) : Except String AccessToken :=
  if token.exp ≤ db.now then .error "Invalid or expired token" else .ok token

/-- The account value internal-or-external used by AuthService.login. -/
inductive Account where
  | internal (u : InternalUser)
  | external (u : User)
deriving DecidableEq, Repr

def Account.id : Account → String
  | .internal u => u.id
  | .external u => u.id

def Account.email : Account → String
  | .internal u => u.email
  | .external u => u.email

def Account.name : Account → Option String
  | .internal u => u.name
  | .external u => u.name

def Account.passwordHash : Account → Option String
  | .internal u => u.passwordHash
  | .external u => u.passwordHash

def Account.isActive : Account → Bool
  | .internal u => u.isActive
  | .external u => u.isActive

/-- The userType string tag computed by AuthService.login. -/
def Account.userType : Account → String
  | .internal _ => "internal"
  | .external _ => "external"

/-- The sanitized principal summary returned by login. -/
structure AuthUserView where
  id : String
  email : String
  name : Option String
deriving DecidableEq, Repr

/-- The structured response of AuthService.login. -/
structure LoginResult where
  userType : String
  accessToken : AccessToken
  refreshToken : String
  user : AuthUserView
deriving DecidableEq, Repr

/-- Steps 2 to 7 of AuthService.login, after account resolution: password
verification, the inactive check for external principals, session
creation, token minting, and the LOGIN audit record. -/
def loginAccount (db : DB) (acc : Account) (email password : String)
    (userAgent ip : Option String) : Except String (LoginResult × DB) :=
  match verifyPassword password acc.passwordHash with
  | .error e => .error e
  | .ok valid =>
    if !valid then .error "Invalid email or password"
    else if acc.userType == "external" && !acc.isActive then
      .error "Please verify your email before logging in"
    else
      let session : Session :=
        match acc with
        | .external u =>
          { id := freshId db.nextRowId, userId := some u.id, internalUserId := none,
            userAgent := userAgent, ip := ip, revokedAt := none, createdAt := db.now }
        | .internal u =>
          { id := freshId db.nextRowId, userId := none, internalUserId := some u.id,
            userAgent := userAgent, ip := ip, revokedAt := none, createdAt := db.now }
      let db1 := { db with sessions := db.sessions ++ [session],
                           nextRowId := db.nextRowId + 1 }
      let subPref := if acc.userType == "internal" then "internal:" else "user:"
      let accessToken :=
        generateAccessToken db1 (subPref.append acc.id) (some email) (some acc.userType) none
      let minted := generateRefreshToken db1 acc.id session.id acc.userType
      let db3 := appendAudit minted.2
        { action := "LOGIN",
          userId := match acc with | .external u => some u.id | .internal _ => none,
          internalUserId := match acc with | .internal u => some u.id | .external _ => none,
          entityType := none, entityId := none, ipAddress := ip, userAgent := userAgent }
      .ok ({ userType := acc.userType, accessToken := accessToken,
             refreshToken := minted.1,
             user := { id := acc.id, email := acc.email, name := acc.name } }, db3)

/-- AuthService.login: resolves an internal principal by email first, and
only if none exists an active (non-soft-deleted) external principal; fails
with the same Invalid email or password error when neither exists or the
password does not verify. -/
def login (db : DB) (email password : String) (userAgent ip : Option String) :
    Except String (LoginResult × DB) :=
  match findInternalUserByEmail db email with
  | some i => loginAccount db (.internal i) email password userAgent ip
  | none =>
    match findActiveUserByEmail db email with
    | none => .error "Invalid email or password"
    | some e => loginAccount db (.external e) email password userAgent ip

/-- The structured response of AuthService.register. -/
structure RegisterResult where
  id : String
  email : String
  name : Option String
  message : String
deriving DecidableEq, Repr

/-- AuthService.register: rejects when a non-soft-deleted external
principal with the email exists; otherwise creates the principal inactive,
mints a verify_email access token (handed to the external email
collaborator, which has no store effect), and writes one audit record. -/
def register (db : DB) (email password : String) (name : Option String) :
    Except String (RegisterResult × DB) :=
  match findActiveUserByEmail db email with
  | some _ => .error "User already exists"
  | none =>
    let pwHash := hashPassword password
    let newUser : User :=
      { id := freshId db.nextRowId, email := email, passwordHash := some pwHash,
        name := name, isActive := false, deletedAt := none }
    let db1 := { db with users := db.users ++ [newUser], nextRowId := db.nextRowId + 1 }
    let _verificationToken :=
      generateAccessToken db1 newUser.id (some newUser.email) none (some "verify_email")
    let db2 := appendAudit db1
      { action := "CREATE_ORG", userId := some newUser.id, internalUserId := none,
        entityType := some "User", entityId := some newUser.id,
        ipAddress := none, userAgent := none }
    .ok ({ id := newUser.id, email := newUser.email, name := newUser.name,
           message := "Registration successful. Please check your email to verify your account." },
         db2)

/-- prisma.session.findFirst with orderBy createdAt desc: the matching row
with the greatest createdAt (the earlier row on ties). -/
def latestByCreatedAt (l : List Session) : Option Session :=
  l.foldl
    (fun acc s =>
      match acc with
      | none => some s
      | some b => if b.createdAt < s.createdAt then some s else some b)
    none

/-- The structured response of AuthService.logout. -/
structure LogoutResult where
  sub : String
  type : Option String
  message : Option String
deriving DecidableEq, Repr

/-- AuthService.logout: verifies the access token, strips an internal: or
user: tag off the subject, resolves the most recent active session of that
principal, revokes it together with its active refresh tokens and writes a
LOGOUT audit record; with no active session it returns an informational
result and leaves the store untouched. -/
def logout (db : DB) (accessToken : AccessToken) : Except String (LogoutResult × DB) :=
  match verifyAccessToken db accessToken with
  | .error e => .error e
  | .ok payload =>
    let sub := payload.sub
    let type := payload.type
    if sub == "" then .error "Invalid access token"
    else
      let id :=
        if jsIncludes sub "internal:" then jsReplaceFirst sub "internal:" ""
        else jsReplaceFirst sub "user:" ""
      let matching := fun (s : Session) =>
        (if type == some "external" then s.userId == some id
         else s.internalUserId == some id)
        && s.revokedAt == none
      match latestByCreatedAt (db.sessions.filter matching) with
      | none => .ok ({ sub := sub, type := type, message := some "No active session" }, db)
      | some sess =>
        let sessions1 := db.sessions.map
          (fun s => if s.id == sess.id then { s with revokedAt := some db.now } else s)
        let db1 := { db with sessions := sessions1 }
        let tokens1 := db1.refreshTokens.map
          (fun r => if r.sessionId == sess.id && r.revokedAt == none
                    then { r with revokedAt := some db.now } else r)
        let db2 := { db1 with refreshTokens := tokens1 }
        let db3 := appendAudit db2
          { action := "LOGOUT",
            userId := if type == some "external" then some id else none,
            internalUserId := if type == some "internal" then some id else none,
            entityType := none, entityId := none,
            ipAddress := sess.ip, userAgent := sess.userAgent }
        .ok ({ sub := sub, type := type, message := none }, db3)

/-- The token pair returned by AuthService.refresh. -/
structure RefreshResult where
  accessToken : AccessToken
  refreshToken : String
deriving DecidableEq, Repr

/-- Store round-trip 1 of AuthService.refresh: the missing-token guard,
the SHA-256 hash of the presented value, findUnique on the hash with the
session relation included, then the revocation and expiry checks. -/
def refreshLookup (db : DB) (raw : String) :
    Except String (RefreshToken × Option Session) :=
  if raw == "" then .error "Missing refresh token"
  else
    match findRefreshTokenByHash db (sha256Hex raw) with
    | none => .error "Invalid or revoked refresh token"
    | some t =>
      if t.revokedAt.isSome then .error "Invalid or revoked refresh token"
      else if t.expiresAt < db.now then .error "Refresh token expired"
      else .ok (t, findSessionById db t.sessionId)

/-- Store round-trip 2 of AuthService.refresh: mint the new access token
and persist the replacement refresh token. The presented row is still
active at this point. -/
def refreshMint (db : DB) (t : RefreshToken) : (AccessToken × String) × DB :=
  let userType := if t.userId.isSome then "external" else "internal"
  let userId := optStr (t.userId.or t.internalUserId)
  let access :=
    generateAccessToken db ((userType.append ":").append userId) none (some userType) none
  let minted := generateRefreshToken db userId t.sessionId userType
  ((access, minted.1), minted.2)

/-- Store round-trip 3 of AuthService.refresh: mark the presented row
revoked. -/
def refreshRevoke (db : DB) (t : RefreshToken) : DB :=
  let tokens := db.refreshTokens.map
    (fun r => if r.id == t.id then { r with revokedAt := some db.now } else r)
  { db with refreshTokens := tokens }

/-- Store round-trip 4 of AuthService.refresh: append the TOKEN_REFRESH
audit record, with ip and user agent read from the session captured at
lookup time. -/
def refreshAudit (db : DB) (t : RefreshToken) (sess : Option Session) : DB :=
  let userType := if t.userId.isSome then "external" else "internal"
  let userId := optStr (t.userId.or t.internalUserId)
  appendAudit db
    { action := "TOKEN_REFRESH",
      userId := if userType == "external" then some userId else none,
      internalUserId := if userType == "internal" then some userId else none,
      entityType := none, entityId := none,
      ipAddress := sess.bind (fun s => s.ip),
      userAgent := sess.bind (fun s => s.userAgent) }

/-- AuthService.refresh, run as a single request with no interleaving:
lookup, mint, revoke, audit, in the order of the source. -/
def refresh (db : DB) (raw : String) : Except String (RefreshResult × DB) :=
  match refreshLookup db raw with
  | .error e => .error e
  | .ok ts =>
    let minted := refreshMint db ts.1
    let db2 := refreshRevoke minted.2 ts.1
    let db3 := refreshAudit db2 ts.1 ts.2
    .ok ({ accessToken := minted.1.1, refreshToken := minted.1.2 }, db3)

/-- PasswordService.resetPassword: hashes the presented token, rejects an
absent or already used row, then an expired one; on success updates the
principal password, marks the token used, and revokes every active session
of the principal. The source writes no audit record on this path. -/
def resetPassword (db : DB) (token newPassword : String) :
    Except String (String × DB) :=
  match findResetTokenByHash db (sha256Hex token) with
  | none => .error "Invalid or used token"
  | some stored =>
    if stored.usedAt.isSome then .error "Invalid or used token"
    else if stored.expiresAt < db.now then .error "Token expired"
    else
      match findUserById db stored.userId with
      | none => .error "User not found"
      | some user =>
        let pwHash := hashPassword newPassword
        let users1 := db.users.map
          (fun u => if u.id == user.id then { u with passwordHash := some pwHash } else u)
        let db1 := { db with users := users1 }
        let reset1 := db1.resetTokens.map
          (fun t => if t.id == stored.id then { t with usedAt := some db.now } else t)
        let db2 := { db1 with resetTokens := reset1 }
        let sessions1 := db2.sessions.map
          (fun s => if s.userId == some user.id && s.revokedAt == none
                    then { s with revokedAt := some db.now } else s)
        let db3 := { db2 with sessions := sessions1 }
        .ok ("Password has been reset successfully.", db3)

/-- Whether an Except value is a success. -/
def exceptOk {ε α : Type} : Except ε α → Bool
  | .ok _ => true
  | .error _ => false

/-- The database after an operation: the returned state on success, the
unchanged input state on failure (every service validates before its first
write, so a thrown error leaves the store as it was). -/
def okDB {α : Type} (r : Except String (α × DB)) (fallback : DB) : DB :=
  match r with
  | .ok p => p.2
  | .error _ => fallback

/-- The value component of a successful operation. -/
def okVal {α : Type} (r : Except String (α × DB)) (fallback : α) : α :=
  match r with
  | .ok p => p.1
  | .error _ => fallback

/-- The error taxonomy of spec section 7, as far as the embedded services
realize it. -/
inductive ErrKind where
  | invalidCredentials
  | principalExists
  | principalInactive
  | principalNotFound
  | tokenInvalid
  | tokenExpired
  | alreadyVerified
  | other
deriving DecidableEq, Repr

/-- Classification of every message thrown by the embedded services into
the spec taxonomy: TokenInvalid covers bad hash, missing and malformed
tokens; TokenExpired covers the two expiry messages. -/
def errKind (e : String) : ErrKind :=
  if e == "Invalid email or password" then .invalidCredentials
  else if e == "User already exists" then .principalExists
  else if e == "Please verify your email before logging in"
       || e == "User account is not active" then .principalInactive
  else if e == "User not found" then .principalNotFound
  else if e == "Invalid or revoked refresh token"
       || e == "Missing refresh token"
       || e == "Invalid or used token"
       || e == "Invalid or expired token"
       || e == "Invalid verification token"
       || e == "Invalid token payload"
       || e == "Invalid access token" then .tokenInvalid
  else if e == "Refresh token expired" || e == "Token expired" then .tokenExpired
  else if e == "User already verified" then .alreadyVerified
  else .other

/-- Whether an operation outcome is a failure of the given taxonomy kind. -/
def failsWith {α : Type} (k : ErrKind) : Except String α → Bool
  | .error e => errKind e == k
  | .ok _ => false

/-- One in-flight refresh request: a program counter over the four store
round-trips of AuthService.refresh, together with the row and session
captured at lookup time and the tokens minted so far. The source spans no
transaction over these round-trips, so between any two of them the store
can be observed or changed by another request. -/
structure RThread where
  raw : String
  pc : Nat
  stored : Option (RefreshToken × Option Session)
  minted : Option (AccessToken × String)
  result : Option (Except String RefreshResult)
deriving Repr

/-- A refresh request about to execute, presenting the given raw value. -/
def RThread.start (raw : String) : RThread :=
  { raw := raw, pc := 0, stored := none, minted := none, result := none }

/-- Execute the next store round-trip of one in-flight refresh request.
Each prisma call is individually atomic. -/
def rstep (db : DB) (th : RThread) : DB × RThread :=
  match th.pc, th.stored, th.minted with
  | 0, _, _ =>
    (match refreshLookup db th.raw with
     | .error e => (db, { th with pc := 4, result := some (.error e) })
     | .ok ts => (db, { th with pc := 1, stored := some ts }))
  | 1, some ts, _ =>
    let minted := refreshMint db ts.1
    (minted.2, { th with pc := 2, minted := some minted.1 })
  | 2, some ts, _ => (refreshRevoke db ts.1, { th with pc := 3 })
  | 3, some ts, some m =>
    (refreshAudit db ts.1 ts.2,
     { th with pc := 4,
               result := some (.ok { accessToken := m.1, refreshToken := m.2 }) })
  | _, _, _ => (db, th)

/-- Run an interleaving of two concurrent refresh requests; true schedules
the first request for one store round-trip, false the second. -/
def runSched : List Bool → DB × RThread × RThread → DB × RThread × RThread
  | [], s => s
  | b :: rest, (db, t1, t2) =>
    if b then
      let s1 := rstep db t1
      runSched rest (s1.1, s1.2, t2)
    else
      let s2 := rstep db t2
      runSched rest (s2.1, t1, s2.2)

/-- Whether an in-flight refresh request has finished successfully. -/
def threadSucceeded (th : RThread) : Bool :=
  match th.result with
  | some (.ok _) => true
  | _ => false

/-- The operations of the engine, for quantifying over what can happen to
the store after a point in time: every service entry point of the
embedding, plus clock movement. -/
inductive Op where
  | loginOp (email password : String) (userAgent ip : Option String)
  | registerOp (email password : String) (name : Option String)
  | logoutOp (tok : AccessToken)
  | refreshOp (raw : String)
  | resetPasswordOp (token newPassword : String)
  | tick (t : Millis)
deriving Repr

/-- Apply one operation to the store: the state it leaves behind whether
it succeeds or fails. -/
def applyOp (db : DB) : Op → DB
  | .loginOp e p ua ip => okDB (login db e p ua ip) db
  | .registerOp e p n => okDB (register db e p n) db
  | .logoutOp tok => okDB (logout db tok) db
  | .refreshOp raw => okDB (refresh db raw) db
  | .resetPasswordOp t p => okDB (resetPassword db t p) db
  | .tick t => { db with now := t }

/-- Fixture: an active, verified external principal with password pw0. -/
def u0 : User :=
  { id := "u0", email := "a@x.com", passwordHash := some (hashPassword "pw0"),
    name := some "Alice", isActive := true, deletedAt := none }

/-- Fixture: an active session of u0. -/
def s0 : Session :=
  { id := "s0", userId := some "u0", internalUserId := none,
    userAgent := some "ua0", ip := some "1.2.3.4", revokedAt := none, createdAt := 0 }

/-- Fixture: an active, unexpired refresh token of session s0 whose raw
value is r0. -/
def rt0 : RefreshToken :=
  { id := "rt0", userId := some "u0", internalUserId := none,
    sessionId := "s0", tokenHash := sha256Hex "r0",
    expiresAt := 1000000, revokedAt := none }

/-- Fixture: an unused, unexpired password reset token of u0 whose raw
value is p0. -/
def prt0 : PasswordResetToken :=
  { id := "prt0", userId := "u0", tokenHash := sha256Hex "p0",
    expiresAt := 1000000, usedAt := none }

/-- Fixture: an internal principal with password ipw0. -/
def i0 : InternalUser :=
  { id := "i0", email := "staff@x.com", passwordHash := some (hashPassword "ipw0"),
    name := some "Bob", isActive := true }

/-- Fixture store: one logged-in external principal with an active
session, refresh token and pending reset token, plus one internal
principal; clock at 1000. -/
def db0 : DB :=
  { users := [u0], internalUsers := [i0], sessions := [s0],
    refreshTokens := [rt0], resetTokens := [prt0], auditLogs := [],
    rng := 0, nextRowId := 0, now := 1000 }

/-- Fixture: db0 with the refresh token row already revoked. -/
def dbRevoked : DB := { db0 with refreshTokens := [{ rt0 with revokedAt := some 5 }] }

/-- Fixture: db0 with the clock moved past the expiry of rt0 and prt0. -/
def dbExpired : DB := { db0 with now := 2000000 }

/-- Fixture: db0 with the reset token row already marked used. -/
def dbUsedReset : DB := { db0 with resetTokens := [{ prt0 with usedAt := some 7 }] }

/-- Fixture: db0 with the external principal soft-deleted. -/
def dbDeleted : DB := { db0 with users := [{ u0 with deletedAt := some 99 }] }

/-- Fixture: a federated-only external principal, active but with a null
stored password hash. -/
def u9 : User :=
  { id := "u9", email := "fed@x.com", passwordHash := none,
    name := none, isActive := true, deletedAt := none }

/-- Fixture store for the null-hash login scenario. -/
def db9 : DB := { db0 with users := [u9] }

/-- The access token login mints for u0 at time 1000. -/
def tokLogin : AccessToken :=
  { sub := "user:u0", email := some "a@x.com", type := some "external",
    action := none, iat := 1000, exp := 1000 + ACCESS_TOKEN_TTL_MS }

/-- The access token refresh mints for the rotation of r0 at time 1000:
its subject carries the external: tag, not the user: tag login uses. -/
def tokRefreshed : AccessToken :=
  { sub := "external:u0", email := none, type := some "external",
    action := none, iat := 1000, exp := 1000 + ACCESS_TOKEN_TTL_MS }

/-- The store after the successful login of u0 in db0. -/
def db0l : DB := okDB (login db0 "a@x.com" "pw0" none none) db0

/-- The store after the successful rotation of r0 in db0. -/
def db0r : DB := okDB (refresh db0 "r0") db0

/-- The store after the successful password reset with p0 in db0. -/
def db0p : DB := okDB (resetPassword db0 "p0" "npw") db0

/-- First store round-trip of a refresh request presenting r0 against db0. -/
def c3s1 : DB × RThread := rstep db0 (RThread.start "r0")

/-- Second store round-trip of the same request: the replacement token has
been persisted, the presented row not yet revoked. -/
def c3s2 : DB × RThread := rstep c3s1.1 c3s1.2

/-- The interleaving in which two refresh requests present r0 together:
both pass the lookup before either commits its revocation. -/
def raceResult : DB × RThread × RThread :=
  runSched [true, false, true, true, true, false, false, false]
    (db0, RThread.start "r0", RThread.start "r0")

/-- The first stored row matching a key is flagged: once this holds, later
inserts (which append) and flag-preserving updates can never unflag the
row a lookup of that key finds. -/
def firstMatchFlagged {α : Type} (key : α → String) (flag : α → Bool)
    (l : List α) (h : String) : Prop :=
  ∃ t, l.find? (fun r => key r == h) = some t ∧ flag t = true

/-- One table state evolves safely into another: every old row is rewritten
by a key-preserving, flag-monotone update, and new rows are appended after
all old rows. Every write the embedded services perform on the refresh and
reset token tables has this shape. -/
def evolvesSafely {α : Type} (key : α → String) (flag : α → Bool)
    (l l2 : List α) : Prop :=
  ∃ f new, l2 = l.map f ++ new
    ∧ (∀ r, key (f r) = key r)
    ∧ (∀ r, flag r = true → flag (f r) = true)

/-- The refresh-token key and flag: lookup hash, revocation marker. -/
def rtDead (l : List RefreshToken) (h : String) : Prop :=
  firstMatchFlagged (fun r => r.tokenHash) (fun r => r.revokedAt.isSome) l h

/-- The reset-token key and flag: lookup hash, used-at marker. -/
def prtDead (l : List PasswordResetToken) (h : String) : Prop :=
  firstMatchFlagged (fun r => r.tokenHash) (fun r => r.usedAt.isSome) l h

theorem find?_map_pres {α : Type} (f : α → α) (p : α → Bool)
    (hf : ∀ a, p (f a) = p a) (l : List α) :
    (l.map f).find? p = (l.find? p).map f := by
  rw [List.find?_map]
  have hcongr : l.find? (p ∘ f) = l.find? p := by
    induction l with
    | nil => rfl
    | cons a l ih =>
      by_cases h : p a = true
      · rw [List.find?_cons_of_pos _ (by simpa [Function.comp, hf a] using h),
            List.find?_cons_of_pos _ h]
      · rw [List.find?_cons_of_neg _ (by simpa [Function.comp, hf a] using h),
            List.find?_cons_of_neg _ h, ih]
  rw [hcongr]

theorem find?_append_some {α : Type} (p : α → Bool) (l₁ l₂ : List α) (a : α)
    (h : l₁.find? p = some a) : (l₁ ++ l₂).find? p = some a := by
  rw [List.find?_append, h]
  rfl

theorem firstMatchFlagged_mono {α : Type} (key : α → String) (flag : α → Bool)
    (l l2 : List α) (h : String)
    (hsafe : evolvesSafely key flag l l2) (hflag : firstMatchFlagged key flag l h) :
    firstMatchFlagged key flag l2 h := by
  obtain ⟨f, new, heq, hkey, hmono⟩ := hsafe
  obtain ⟨t, hfind, ht⟩ := hflag
  refine ⟨f t, ?_, hmono t ht⟩
  rw [heq]
  apply find?_append_some
  rw [find?_map_pres f _ (fun a => by simp [hkey a]) l, hfind]
  rfl

theorem evolvesSafely_refl {α : Type} (key : α → String) (flag : α → Bool)
    (l : List α) : evolvesSafely key flag l l :=
  ⟨id, [], by simp, fun _ => rfl, fun _ hr => hr⟩

theorem evolvesSafely_append {α : Type} (key : α → String) (flag : α → Bool)
    (l new : List α) : evolvesSafely key flag l (l ++ new) :=
  ⟨id, new, by simp, fun _ => rfl, fun _ hr => hr⟩

theorem evolvesSafely_map {α : Type} (key : α → String) (flag : α → Bool)
    (l : List α) (f : α → α)
    (hkey : ∀ r, key (f r) = key r) (hmono : ∀ r, flag r = true → flag (f r) = true) :
    evolvesSafely key flag l (l.map f) :=
  ⟨f, [], by simp, hkey, hmono⟩

theorem evolvesSafely_append_map {α : Type} (key : α → String) (flag : α → Bool)
    (l : List α) (row : α) (f : α → α)
    (hkey : ∀ r, key (f r) = key r) (hmono : ∀ r, flag r = true → flag (f r) = true) :
    evolvesSafely key flag l ((l ++ [row]).map f) :=
  ⟨f, [f row], by simp, hkey, hmono⟩

theorem register_tables (db : DB) (e p : String) (n : Option String) :
    (okDB (register db e p n) db).refreshTokens = db.refreshTokens
    ∧ (okDB (register db e p n) db).resetTokens = db.resetTokens := by
  unfold register
  cases h : findActiveUserByEmail db e <;> exact ⟨rfl, rfl⟩

theorem loginAccount_tables (db : DB) (acc : Account) (e p : String) (ua ip : Option String) :
    evolvesSafely (fun r => r.tokenHash) (fun r => r.revokedAt.isSome)
      db.refreshTokens (okDB (loginAccount db acc e p ua ip) db).refreshTokens
    ∧ (okDB (loginAccount db acc e p ua ip) db).resetTokens = db.resetTokens := by
  unfold loginAccount
  cases hv : verifyPassword p acc.passwordHash
  · exact ⟨evolvesSafely_refl _ _ _, rfl⟩
  · rename_i valid
    dsimp only
    by_cases h1 : (!valid) = true
    · simp only [if_pos h1]
      exact ⟨evolvesSafely_refl _ _ _, rfl⟩
    · simp only [if_neg h1]
      by_cases h2 : (acc.userType == "external" && !acc.isActive) = true
      · simp only [if_pos h2]
        exact ⟨evolvesSafely_refl _ _ _, rfl⟩
      · simp only [if_neg h2]
        exact ⟨evolvesSafely_append _ _ _ _, rfl⟩

theorem login_tables (db : DB) (e p : String) (ua ip : Option String) :
    evolvesSafely (fun r => r.tokenHash) (fun r => r.revokedAt.isSome)
      db.refreshTokens (okDB (login db e p ua ip) db).refreshTokens
    ∧ (okDB (login db e p ua ip) db).resetTokens = db.resetTokens := by
  unfold login
  cases h1 : findInternalUserByEmail db e
  · cases h2 : findActiveUserByEmail db e
    · exact ⟨evolvesSafely_refl _ _ _, rfl⟩
    · exact loginAccount_tables db _ e p ua ip
  · exact loginAccount_tables db _ e p ua ip

theorem logout_tables (db : DB) (tok : AccessToken) :
    evolvesSafely (fun r => r.tokenHash) (fun r => r.revokedAt.isSome)
      db.refreshTokens (okDB (logout db tok) db).refreshTokens
    ∧ (okDB (logout db tok) db).resetTokens = db.resetTokens := by
  unfold logout
  cases hv : verifyAccessToken db tok
  · exact ⟨evolvesSafely_refl _ _ _, rfl⟩
  · rename_i payload
    dsimp only
    by_cases h1 : (payload.sub == "") = true
    · simp only [if_pos h1]
      exact ⟨evolvesSafely_refl _ _ _, rfl⟩
    · simp only [if_neg h1]
      split
      · exact ⟨evolvesSafely_refl _ _ _, rfl⟩
      · rename_i sess hs
        refine ⟨?_, rfl⟩
        exact evolvesSafely_map _ _ _ _
          (fun r => by
            by_cases hc : (r.sessionId == sess.id && r.revokedAt == none) = true <;> simp [hc])
          (fun r hr => by
            by_cases hc : (r.sessionId == sess.id && r.revokedAt == none) = true <;> simp [hc, hr])

theorem refresh_tables (db : DB) (raw : String) :
    evolvesSafely (fun r => r.tokenHash) (fun r => r.revokedAt.isSome)
      db.refreshTokens (okDB (refresh db raw) db).refreshTokens
    ∧ (okDB (refresh db raw) db).resetTokens = db.resetTokens := by
  unfold refresh
  cases hl : refreshLookup db raw
  · exact ⟨evolvesSafely_refl _ _ _, rfl⟩
  · rename_i ts
    dsimp only
    refine ⟨?_, rfl⟩
    exact evolvesSafely_append_map _ _ _ _ _
      (fun r => by by_cases hc : (r.id == ts.1.id) = true <;> simp [hc])
      (fun r hr => by by_cases hc : (r.id == ts.1.id) = true <;> simp [hc, hr])

theorem resetPassword_tables (db : DB) (t p : String) :
    (okDB (resetPassword db t p) db).refreshTokens = db.refreshTokens
    ∧ evolvesSafely (fun r => r.tokenHash) (fun r => r.usedAt.isSome)
        db.resetTokens (okDB (resetPassword db t p) db).resetTokens := by
  unfold resetPassword
  cases h1 : findResetTokenByHash db (sha256Hex t)
  · exact ⟨rfl, evolvesSafely_refl _ _ _⟩
  · rename_i stored
    dsimp only
    by_cases h2 : stored.usedAt.isSome = true
    · simp only [if_pos h2]
      exact ⟨rfl, evolvesSafely_refl _ _ _⟩
    · simp only [if_neg h2]
      by_cases h3 : stored.expiresAt < db.now
      · simp only [if_pos h3]
        exact ⟨rfl, evolvesSafely_refl _ _ _⟩
      · simp only [if_neg h3]
        cases h4 : findUserById db stored.userId
        · exact ⟨rfl, evolvesSafely_refl _ _ _⟩
        · rename_i user
          dsimp only
          refine ⟨rfl, ?_⟩
          exact evolvesSafely_map _ _ _ _
            (fun r => by by_cases hc : (r.id == stored.id) = true <;> simp [hc])
            (fun r hr => by by_cases hc : (r.id == stored.id) = true <;> simp [hc, hr])

theorem applyOp_tables (db : DB) (op : Op) :
    evolvesSafely (fun r => r.tokenHash) (fun r => r.revokedAt.isSome)
      db.refreshTokens (applyOp db op).refreshTokens
    ∧ evolvesSafely (fun r => r.tokenHash) (fun r => r.usedAt.isSome)
        db.resetTokens (applyOp db op).resetTokens := by
  cases op with
  | loginOp e p ua ip =>
    refine ⟨(login_tables db e p ua ip).1, ?_⟩
    show evolvesSafely _ _ db.resetTokens (okDB (login db e p ua ip) db).resetTokens
    rw [(login_tables db e p ua ip).2]
    exact evolvesSafely_refl _ _ _
  | registerOp e p n =>
    refine ⟨?_, ?_⟩
    · show evolvesSafely _ _ db.refreshTokens (okDB (register db e p n) db).refreshTokens
      rw [(register_tables db e p n).1]
      exact evolvesSafely_refl _ _ _
    · show evolvesSafely _ _ db.resetTokens (okDB (register db e p n) db).resetTokens
      rw [(register_tables db e p n).2]
      exact evolvesSafely_refl _ _ _
  | logoutOp tok =>
    refine ⟨(logout_tables db tok).1, ?_⟩
    show evolvesSafely _ _ db.resetTokens (okDB (logout db tok) db).resetTokens
    rw [(logout_tables db tok).2]
    exact evolvesSafely_refl _ _ _
  | refreshOp raw =>
    refine ⟨(refresh_tables db raw).1, ?_⟩
    show evolvesSafely _ _ db.resetTokens (okDB (refresh db raw) db).resetTokens
    rw [(refresh_tables db raw).2]
    exact evolvesSafely_refl _ _ _
  | resetPasswordOp t p =>
    refine ⟨?_, (resetPassword_tables db t p).2⟩
    show evolvesSafely _ _ db.refreshTokens (okDB (resetPassword db t p) db).refreshTokens
    rw [(resetPassword_tables db t p).1]
    exact evolvesSafely_refl _ _ _
  | tick t => exact ⟨evolvesSafely_refl _ _ _, evolvesSafely_refl _ _ _⟩

theorem rtDead_applyOp (db : DB) (op : Op) (h : String)
    (hd : rtDead db.refreshTokens h) : rtDead (applyOp db op).refreshTokens h :=
  firstMatchFlagged_mono _ _ _ _ _ (applyOp_tables db op).1 hd

theorem rtDead_foldl (ops : List Op) (db : DB) (h : String)
    (hd : rtDead db.refreshTokens h) :
    rtDead (ops.foldl applyOp db).refreshTokens h := by
  induction ops generalizing db with
  | nil => exact hd
  | cons op rest ih => exact ih (applyOp db op) (rtDead_applyOp db op h hd)

theorem prtDead_applyOp (db : DB) (op : Op) (h : String)
    (hd : prtDead db.resetTokens h) : prtDead (applyOp db op).resetTokens h :=
  firstMatchFlagged_mono _ _ _ _ _ (applyOp_tables db op).2 hd

theorem prtDead_foldl (ops : List Op) (db : DB) (h : String)
    (hd : prtDead db.resetTokens h) :
    prtDead (ops.foldl applyOp db).resetTokens h := by
  induction ops generalizing db with
  | nil => exact hd
  | cons op rest ih => exact ih (applyOp db op) (prtDead_applyOp db op h hd)

theorem rtDead_after_revoke (l new : List RefreshToken) (t : RefreshToken)
    (h : String) (now : Millis)
    (hfind : l.find? (fun r => r.tokenHash == h) = some t) :
    rtDead ((l ++ new).map
      (fun r => if r.id == t.id then { r with revokedAt := some now } else r)) h := by
  refine ⟨{ t with revokedAt := some now }, ?_, by simp⟩
  rw [find?_map_pres _ _ (fun a => by by_cases hc : (a.id == t.id) = true <;> simp [hc])]
  rw [find?_append_some _ _ _ _ hfind]
  simp

theorem prtDead_after_use (l : List PasswordResetToken) (t : PasswordResetToken)
    (h : String) (now : Millis)
    (hfind : l.find? (fun r => r.tokenHash == h) = some t) :
    prtDead (l.map
      (fun r => if r.id == t.id then { r with usedAt := some now } else r)) h := by
  refine ⟨{ t with usedAt := some now }, ?_, by simp⟩
  rw [find?_map_pres _ _ (fun a => by by_cases hc : (a.id == t.id) = true <;> simp [hc])]
  rw [hfind]
  simp

theorem refreshLookup_ok (db : DB) (raw : String) (t : RefreshToken)
    (sess : Option Session) (h : refreshLookup db raw = .ok (t, sess)) :
    (raw == "") = false
    ∧ findRefreshTokenByHash db (sha256Hex raw) = some t
    ∧ t.revokedAt.isSome = false
    ∧ ¬ t.expiresAt < db.now := by
  unfold refreshLookup at h
  split at h
  · exact absurd h (by simp)
  · rename_i hraw
    split at h
    · exact absurd h (by simp)
    · rename_i t' hfind
      split at h
      · exact absurd h (by simp)
      · rename_i hrev
        split at h
        · exact absurd h (by simp)
        · rename_i hexp
          injection h with hpair
          injection hpair with ht hsess
          subst ht
          exact ⟨by simpa using hraw, hfind, by simpa using hrev, hexp⟩

theorem refresh_ok_dead (db : DB) (raw : String) (res : RefreshResult) (db1 : DB)
    (h : refresh db raw = .ok (res, db1)) :
    rtDead db1.refreshTokens (sha256Hex raw) := by
  unfold refresh at h
  split at h
  · exact absurd h (by simp)
  · rename_i ts heq
    obtain ⟨hraw, hfind, hrev, hexp⟩ := refreshLookup_ok db raw ts.1 ts.2 heq
    injection h with hpair
    injection hpair with hres hdb
    subst hdb
    exact rtDead_after_revoke db.refreshTokens _ ts.1 (sha256Hex raw) db.now hfind

theorem rtDead_refresh_fails (db : DB) (raw : String)
    (hd : rtDead db.refreshTokens (sha256Hex raw)) :
    failsWith ErrKind.tokenInvalid (refresh db raw) = true := by
  obtain ⟨t, hfind, ht⟩ := hd
  have hfind2 : findRefreshTokenByHash db (sha256Hex raw) = some t := hfind
  unfold refresh refreshLookup
  by_cases hraw : (raw == "") = true
  · simp only [if_pos hraw]
    rfl
  · simp only [if_neg hraw, hfind2]
    rw [if_pos ht]
    rfl

theorem resetPassword_ok_dead (db : DB) (token newPassword msg : String) (db1 : DB)
    (h : resetPassword db token newPassword = .ok (msg, db1)) :
    prtDead db1.resetTokens (sha256Hex token) := by
  unfold resetPassword at h
  split at h
  · exact absurd h (by simp)
  · rename_i stored hfind
    split at h
    · exact absurd h (by simp)
    · split at h
      · exact absurd h (by simp)
      · split at h
        · exact absurd h (by simp)
        · rename_i user huser
          injection h with hpair
          injection hpair with hmsg hdb
          subst hdb
          exact prtDead_after_use db.resetTokens stored (sha256Hex token) db.now hfind

theorem prtDead_reset_fails (db : DB) (token pw : String)
    (hd : prtDead db.resetTokens (sha256Hex token)) :
    failsWith ErrKind.tokenInvalid (resetPassword db token pw) = true := by
  obtain ⟨t, hfind, ht⟩ := hd
  have hfind2 : findResetTokenByHash db (sha256Hex token) = some t := hfind
  unfold resetPassword
  simp only [hfind2]
  rw [if_pos ht]
  rfl

/-- C1: for every presented refresh-token value, refresh fails with a
TokenInvalid error when no stored row matches the hash of the value or
when the matching row is already revoked, and fails with TokenExpired when
the matching row is active but its stored expiry has passed; and after one
successful rotation of a raw value, every later rotation attempt
presenting that same raw value fails with TokenInvalid, no matter which
further operations of the engine run in between (sequential single use). -/
theorem refresh_failure_modes_and_single_use (db : DB) (raw : String) :
    (findRefreshTokenByHash db (sha256Hex raw) = none →
      failsWith ErrKind.tokenInvalid (refresh db raw) = true)
    ∧ (∀ t : RefreshToken,
        findRefreshTokenByHash db (sha256Hex raw) = some t →
        t.revokedAt.isSome = true →
        failsWith ErrKind.tokenInvalid (refresh db raw) = true)
    ∧ (∀ t : RefreshToken, raw ≠ "" →
        findRefreshTokenByHash db (sha256Hex raw) = some t →
        t.revokedAt = none → t.expiresAt < db.now →
        failsWith ErrKind.tokenExpired (refresh db raw) = true)
    ∧ (∀ (res : RefreshResult) (db1 : DB) (ops : List Op),
        refresh db raw = .ok (res, db1) →
        failsWith ErrKind.tokenInvalid (refresh (ops.foldl applyOp db1) raw) = true) := by
  refine ⟨?_, ?_, ?_, ?_⟩
  · intro hnone
    unfold refresh refreshLookup
    by_cases hraw : (raw == "") = true
    · simp only [if_pos hraw]
      rfl
    · simp only [if_neg hraw, hnone]
      rfl
  · intro t hfind hrev
    exact rtDead_refresh_fails db raw ⟨t, hfind, hrev⟩
  · intro t hraw hfind hrev hexp
    unfold refresh refreshLookup
    rw [if_neg (show ¬ ((raw == "") = true) by simp [hraw])]
    simp only [hfind]
    rw [if_neg (show ¬ (t.revokedAt.isSome = true) by simp [hrev])]
    rw [if_pos hexp]
    rfl
  · intro res db1 ops hok
    exact rtDead_refresh_fails _ raw
      (rtDead_foldl ops db1 _ (refresh_ok_dead db raw res db1 hok))

/-- Witness for C1: concrete runs of each failure mode against the
fixture store, and the single-use consequence after the successful
rotation of r0, with the clock moved in between. -/
theorem refresh_failure_modes_and_single_use_witness :
    failsWith ErrKind.tokenInvalid (refresh db0 "nope") = true
    ∧ failsWith ErrKind.tokenInvalid (refresh dbRevoked "r0") = true
    ∧ failsWith ErrKind.tokenExpired (refresh dbExpired "r0") = true
    ∧ failsWith ErrKind.tokenInvalid
        (refresh ([Op.tick 5000].foldl applyOp db0r) "r0") = true := by
  refine ⟨?_, ?_, ?_, ?_⟩
  · exact (refresh_failure_modes_and_single_use db0 "nope").1 (by decide)
  · exact (refresh_failure_modes_and_single_use dbRevoked "r0").2.1
      { rt0 with revokedAt := some 5 } (by decide) (by decide)
  · exact (refresh_failure_modes_and_single_use dbExpired "r0").2.2.1
      rt0 (by decide) (by decide) (by decide) (by decide)
  · exact (refresh_failure_modes_and_single_use db0 "r0").2.2.2
      _ _ [Op.tick 5000] rfl

/-- C5: resetPassword with a given token succeeds at most once. The
used-at marker is checked before any write: a presented token whose
stored row already carries a used-at marker fails with TokenInvalid
regardless of its expiry; and after one successful reset, every later
attempt presenting the same token fails with TokenInvalid, no matter
which further operations of the engine (including clock movement past
the expiry) run in between. -/
theorem resetPassword_single_use (db : DB) (token newPassword : String) :
    (∀ t : PasswordResetToken,
        findResetTokenByHash db (sha256Hex token) = some t →
        t.usedAt.isSome = true →
        failsWith ErrKind.tokenInvalid (resetPassword db token newPassword) = true)
    ∧ (∀ (msg : String) (db1 : DB) (ops : List Op) (pw2 : String),
        resetPassword db token newPassword = .ok (msg, db1) →
        failsWith ErrKind.tokenInvalid
          (resetPassword (ops.foldl applyOp db1) token pw2) = true) := by
  refine ⟨?_, ?_⟩
  · intro t hfind hused
    exact prtDead_reset_fails db token newPassword ⟨t, hfind, hused⟩
  · intro msg db1 ops pw2 hok
    exact prtDead_reset_fails _ token pw2
      (prtDead_foldl ops db1 _ (resetPassword_ok_dead db token newPassword msg db1 hok))

/-- Witness for C5: a concrete already-used token fails, and after the
successful reset with p0 a second attempt fails even with the clock
moved far past the expiry of the token. -/
theorem resetPassword_single_use_witness :
    failsWith ErrKind.tokenInvalid (resetPassword dbUsedReset "p0" "x") = true
    ∧ failsWith ErrKind.tokenInvalid
        (resetPassword ([Op.tick 5000000].foldl applyOp db0p) "p0" "y") = true := by
  refine ⟨?_, ?_⟩
  · exact (resetPassword_single_use dbUsedReset "p0" "x").1
      { prt0 with usedAt := some 7 } (by decide) (by decide)
  · exact (resetPassword_single_use db0 "p0" "npw").2
      _ _ [Op.tick 5000000] "y" rfl

/-- C2: the lookup-mint-revoke sequence of refresh spans several store
calls with no transaction around them; in the interleaving in which both
requests pass the lookup before either revocation commits, two concurrent
rotations presenting the same raw value r0 both succeed, so the sequence
is not atomic with respect to concurrent presentation of the same raw
token and no losing rotation observes TokenInvalid. -/
theorem refresh_race_both_succeed :
    threadSucceeded raceResult.2.1 = true ∧ threadSucceeded raceResult.2.2 = true :=
  ⟨rfl, rfl⟩

/-- C3 counterexample: refresh persists the replacement refresh token
before revoking the presented one. After the mint round-trip and before
the revoke round-trip of a rotation of r0, the store holds two active
refresh tokens for session s0, and the presented row rt0 is still active
among them; the same four round-trips run to completion succeed. -/
theorem rotation_mint_precedes_revoke :
    (db0.refreshTokens.filter
        (fun r => r.sessionId == "s0" && r.revokedAt == none)).length = 1
    ∧ (c3s2.1.refreshTokens.filter
        (fun r => r.sessionId == "s0" && r.revokedAt == none)).length = 2
    ∧ c3s2.1.refreshTokens.find? (fun r => r.id == "rt0") = some rt0
    ∧ threadSucceeded
        (runSched [true, true, true, true]
          (db0, RThread.start "r0", RThread.start "r0")).2.1 = true :=
  ⟨rfl, rfl, rfl, rfl⟩

/-- C4 counterexample: resetPassword revokes every active session of the
principal, but it does not revoke the refresh-token rows and refresh
never consults session revocation, so a refresh token issued before the
reset still rotates successfully afterwards. -/
theorem resetPassword_does_not_invalidate_refresh :
    exceptOk (resetPassword db0 "p0" "npw") = true
    ∧ db0p.sessions.filter (fun s => s.userId == some "u0" && s.revokedAt == none) = []
    ∧ exceptOk (refresh db0p "r0") = true :=
  ⟨rfl, rfl, rfl⟩

/-- C8: login, logout and refresh each append exactly one audit record
with the expected action on their success paths, but a successful
resetPassword appends no audit record at all. -/
theorem audit_records_on_success :
    db0l.auditLogs.map (fun a => a.action) = ["LOGIN"]
    ∧ (okDB (logout db0 tokLogin) db0).auditLogs.map (fun a => a.action) = ["LOGOUT"]
    ∧ db0r.auditLogs.map (fun a => a.action) = ["TOKEN_REFRESH"]
    ∧ exceptOk (resetPassword db0 "p0" "npw") = true
    ∧ db0p.auditLogs = [] :=
  ⟨rfl, rfl, rfl, rfl, rfl⟩

/-- C9: for a principal whose stored password hash is null, login does
not fail with the uniform InvalidCredentials error: the non-null
assertion at the call site passes the null hash to bcryptjs.compare,
whose argument check rejects it, and login aborts abnormally with the
Illegal arguments error, whatever password is presented. -/
theorem login_null_hash_aborts (password : String) (ua ip : Option String) :
    login db9 "fed@x.com" password ua ip = .error "Illegal arguments: string, object"
    ∧ login db9 "fed@x.com" password ua ip ≠ .error "Invalid email or password"
    ∧ errKind "Illegal arguments: string, object" = ErrKind.other := by
  refine ⟨rfl, ?_, by decide⟩
  intro hcontra
  have h2 := (rfl :
    login db9 "fed@x.com" password ua ip
      = Except.error "Illegal arguments: string, object").symm.trans hcontra
  injection h2 with h3
  exact absurd h3 (by decide)

/-- C6: register fails with the PrincipalExists error when a
non-soft-deleted external principal with the email exists, and succeeds
when every external principal with the email is soft-deleted (in
particular when none exists), appending one new external principal row
that is initially inactive and not soft-deleted. -/
theorem register_email_uniqueness (db : DB) (email password : String) (name : Option String) :
    ((∃ u ∈ db.users, u.email = email ∧ u.deletedAt = none) →
      register db email password name = .error "User already exists")
    ∧ ((∀ u ∈ db.users, u.email = email → u.deletedAt ≠ none) →
      ∃ res db1, register db email password name = .ok (res, db1)
        ∧ ∃ newUser : User, db1.users = db.users ++ [newUser]
            ∧ newUser.email = email ∧ newUser.isActive = false
            ∧ newUser.deletedAt = none) := by
  constructor
  · rintro ⟨u, hu, heq, hdel⟩
    have hsome : (findActiveUserByEmail db email).isSome = true := by
      unfold findActiveUserByEmail
      rw [List.find?_isSome]
      exact ⟨u, hu, by simp [heq, hdel]⟩
    unfold register
    cases hfind : findActiveUserByEmail db email
    · rw [hfind] at hsome
      simp at hsome
    · rfl
  · intro hall
    have hnone : findActiveUserByEmail db email = none := by
      unfold findActiveUserByEmail
      rw [List.find?_eq_none]
      intro u hu
      simp only [Bool.and_eq_true, beq_iff_eq]
      rintro ⟨he, hd⟩
      exact hall u hu he hd
    unfold register
    rw [hnone]
    exact ⟨_, _, rfl, _, rfl, rfl, rfl, rfl⟩

/-- Witness for C6: registering the email of the active principal in db0
fails, and registering it again after the principal is soft-deleted
succeeds with a fresh inactive row. -/
theorem register_email_uniqueness_witness :
    register db0 "a@x.com" "pw1" none = .error "User already exists"
    ∧ (∃ res db1, register dbDeleted "a@x.com" "pw1" none = .ok (res, db1)
        ∧ ∃ newUser : User, db1.users = dbDeleted.users ++ [newUser]
            ∧ newUser.email = "a@x.com" ∧ newUser.isActive = false
            ∧ newUser.deletedAt = none) :=
  ⟨(register_email_uniqueness db0 "a@x.com" "pw1" none).1 (by decide),
   (register_email_uniqueness dbDeleted "a@x.com" "pw1" none).2 (by decide)⟩

/-- C7: login produces the identical InvalidCredentials outcome, the very
same error value, in each failure case: when neither an internal
principal nor an active external principal matches the email, when an
internal principal matches but the presented password does not verify
against its stored hash, and when an active external principal matches
but the password does not verify. -/
theorem login_uniform_invalid_credentials (db : DB) (email password : String)
    (ua ip : Option String) :
    (findInternalUserByEmail db email = none → findActiveUserByEmail db email = none →
      login db email password ua ip = .error "Invalid email or password")
    ∧ (∀ (i : InternalUser) (h : String),
        findInternalUserByEmail db email = some i →
        i.passwordHash = some h → bcryptCompare password h = false →
        login db email password ua ip = .error "Invalid email or password")
    ∧ (∀ (u : User) (h : String),
        findInternalUserByEmail db email = none →
        findActiveUserByEmail db email = some u →
        u.passwordHash = some h → bcryptCompare password h = false →
        login db email password ua ip = .error "Invalid email or password") := by
  refine ⟨?_, ?_, ?_⟩
  · intro h1 h2
    unfold login
    rw [h1, h2]
  · intro i h hfind hhash hcmp
    unfold login
    simp only [hfind]
    unfold loginAccount
    simp only [Account.passwordHash]
    rw [hhash]
    unfold verifyPassword
    dsimp only
    rw [hcmp]
    rfl
  · intro u h hint hext hhash hcmp
    unfold login
    simp only [hint, hext]
    unfold loginAccount
    simp only [Account.passwordHash]
    rw [hhash]
    unfold verifyPassword
    dsimp only
    rw [hcmp]
    rfl

/-- Witness for C7: the unknown-email case, the wrong-password case for
the internal principal, and the wrong-password case for the external
principal all yield the same error value against db0. -/
theorem login_uniform_invalid_credentials_witness :
    login db0 "ghost@x.com" "pw0" none none = .error "Invalid email or password"
    ∧ login db0 "staff@x.com" "wrong" none none = .error "Invalid email or password"
    ∧ login db0 "a@x.com" "wrong" none none = .error "Invalid email or password" :=
  ⟨(login_uniform_invalid_credentials db0 "ghost@x.com" "pw0" none none).1
      (by decide) (by decide),
   (login_uniform_invalid_credentials db0 "staff@x.com" "wrong" none none).2.1
      i0 (hashPassword "ipw0") (by decide) (by decide) (by decide),
   (login_uniform_invalid_credentials db0 "a@x.com" "wrong" none none).2.2
      u0 (hashPassword "pw0") (by decide) (by decide) (by decide) (by decide)⟩

theorem jsReplaceFirstL_no_match (pat repl s : List Char)
    (h : jsIncludesL pat s = false) : jsReplaceFirstL pat repl s = s := by
  induction s with
  | nil =>
    unfold jsIncludesL at h
    unfold jsReplaceFirstL
    rw [if_neg (by simp [h])]
  | cons c cs ih =>
    unfold jsIncludesL at h
    rw [Bool.or_eq_false_iff] at h
    unfold jsReplaceFirstL
    rw [if_neg (by simp [h.1]), ih h.2]

theorem jsReplaceFirst_no_match (s pat repl : String)
    (h : jsIncludes s pat = false) : jsReplaceFirst s pat repl = s := by
  unfold jsIncludes at h
  unfold jsReplaceFirst
  rw [jsReplaceFirstL_no_match pat.data repl.data s.data h]

theorem external_append_ne_empty (uid : String) :
    (("external:".append uid) == "") = false := by
  rw [beq_eq_false_iff_ne]
  intro hcontra
  have h2 := congrArg String.length hcontra
  rw [show "external:".append uid = "external:" ++ uid from rfl,
      String.length_append] at h2
  simp at h2
  exact absurd h2.1 (by decide)

theorem refreshMint_external_sub (db : DB) (t : RefreshToken) (uid : String)
    (huid : t.userId = some uid) :
    (refreshMint db t).1.1.sub = "external:".append uid
    ∧ (refreshMint db t).1.1.type = some "external" := by
  unfold refreshMint generateAccessToken
  rw [huid]
  exact ⟨rfl, rfl⟩

theorem loginAccount_ok (db : DB) (acc : Account) (e p : String) (ua ip : Option String)
    (res : LoginResult) (db1 : DB)
    (h : loginAccount db acc e p ua ip = .ok (res, db1)) :
    res.userType = acc.userType
    ∧ res.user.id = acc.id
    ∧ res.accessToken.sub
        = (if acc.userType == "internal" then "internal:" else "user:").append acc.id := by
  unfold loginAccount at h
  split at h
  · exact absurd h (by simp)
  · split at h
    · exact absurd h (by simp)
    · split at h
      · exact absurd h (by simp)
      · dsimp only at h
        injection h with hpair
        injection hpair with hres hdb
        subst hres
        exact ⟨rfl, rfl, rfl⟩

theorem logout_no_session_filter (sessions : List Session) (sub : String)
    (hsess : ∀ s ∈ sessions, s.userId ≠ some sub) :
    sessions.filter (fun s => (s.userId == some sub) && (s.revokedAt == none)) = [] := by
  rw [List.filter_eq_nil_iff]
  intro s hs
  simp [hsess s hs]

/-- C10: the subjects minted by refresh and by login do not agree for
external principals, and logout only strips the internal: and user: tags:
a successful rotation of a row owned by an external principal mints an
access token whose subject carries the external: tag, login mints the
user: tag for the same principal, and logout presented with an
external-tagged token leaves the tag in place, matches no session of any
store whose sessions carry plain principal ids, returns the informational
No active session result, and leaves the store unchanged. -/
theorem refresh_login_subject_mismatch_logout_noop :
    (∀ (db : DB) (raw : String) (t : RefreshToken) (sess : Option Session)
        (uid : String) (res : RefreshResult) (db1 : DB),
        refreshLookup db raw = .ok (t, sess) → t.userId = some uid →
        refresh db raw = .ok (res, db1) →
        res.accessToken.sub = "external:".append uid
          ∧ res.accessToken.type = some "external")
    ∧ (∀ (db : DB) (e p : String) (ua ip : Option String)
        (res : LoginResult) (db1 : DB),
        login db e p ua ip = .ok (res, db1) → res.userType = "external" →
        res.accessToken.sub = "user:".append res.user.id)
    ∧ (∀ (db : DB) (tok : AccessToken) (uid : String),
        tok.sub = "external:".append uid →
        tok.type = some "external" →
        ¬ tok.exp ≤ db.now →
        jsIncludes tok.sub "internal:" = false →
        jsIncludes tok.sub "user:" = false →
        (∀ s ∈ db.sessions, s.userId ≠ some tok.sub) →
        logout db tok
          = .ok ({ sub := tok.sub, type := tok.type,
                   message := some "No active session" }, db)) := by
  refine ⟨?_, ?_, ?_⟩
  · intro db raw t sess uid res db1 hlook huid hok
    unfold refresh at hok
    rw [hlook] at hok
    dsimp only at hok
    injection hok with hpair
    injection hpair with hres hdb
    subst hres
    exact refreshMint_external_sub db t uid huid
  · intro db e p ua ip res db1 hok hext
    unfold login at hok
    cases h1 : findInternalUserByEmail db e with
    | some i =>
      rw [h1] at hok
      have hty := (loginAccount_ok db (.internal i) e p ua ip res db1 hok).1
      rw [hext, show (Account.internal i).userType = "internal" from rfl] at hty
      exact absurd hty (by decide)
    | none =>
      rw [h1] at hok
      cases h2 : findActiveUserByEmail db e with
      | none =>
        rw [h2] at hok
        exact absurd hok (by simp)
      | some u =>
        rw [h2] at hok
        obtain ⟨hty, hid, hsub⟩ := loginAccount_ok db (.external u) e p ua ip res db1 hok
        rw [hsub, hid]
        rfl
  · intro db tok uid hsub htype hexp hinc1 hinc2 hsess
    unfold logout verifyAccessToken
    rw [if_neg hexp]
    dsimp only
    rw [if_neg (show ¬ ((tok.sub == "") = true) by
          rw [hsub]; simp [external_append_ne_empty])]
    simp only [hinc1, Bool.false_eq_true, if_false,
               jsReplaceFirst_no_match tok.sub "user:" "" hinc2,
               htype, beq_self_eq_true, if_true]
    rw [logout_no_session_filter db.sessions tok.sub hsess]
    rfl

/-- Witness for C10: rotating r0 in db0 mints the external-tagged token
tokRefreshed; login of the same principal mints the user: tag; and
logout of db0r with tokRefreshed matches nothing and changes nothing. -/
theorem refresh_login_subject_mismatch_logout_noop_witness :
    (tokRefreshed.sub = "external:".append "u0"
      ∧ tokRefreshed.type = some "external")
    ∧ tokLogin.sub = "user:".append "u0"
    ∧ logout db0r tokRefreshed
        = .ok ({ sub := tokRefreshed.sub, type := tokRefreshed.type,
                 message := some "No active session" }, db0r) := by
  refine ⟨?_, ?_, ?_⟩
  · exact refresh_login_subject_mismatch_logout_noop.1 db0 "r0" rt0 (some s0) "u0"
      { accessToken := tokRefreshed, refreshToken := randomHex 0 } db0r rfl rfl rfl
  · exact refresh_login_subject_mismatch_logout_noop.2.1 db0 "a@x.com" "pw0" none none
      { userType := "external", accessToken := tokLogin, refreshToken := randomHex 0,
        user := { id := "u0", email := "a@x.com", name := some "Alice" } }
      db0l rfl rfl
  · exact refresh_login_subject_mismatch_logout_noop.2.2 db0r tokRefreshed "u0"
      rfl rfl (by decide) (by decide) (by decide) (by decide)

end TsAuthnAuthz
